import Mathlib

set_option autoImplicit false

/-!
Shallow embedding of the snoo_buttons repository (src/snoo_buttons/snoo.py,
src/snoo_buttons/constants.py, src/snoo_buttons/utils.py) and proofs about it.

Command handlers are embedded as pure functions from a snapshot to the list
of observable effects they perform (published pub/sub messages, LED writes,
warning-level log lines; info-level log lines are not modelled).  The worker
loop is embedded as a fuel-indexed recursion over the command queue, with the
outcomes of the I/O steps (history fetch, publish success) supplied by an
environment record.
-/

namespace SnooButtons

/-- Soothing levels of the vendor SDK (pysnoo SessionLevel), including the
ONLINE pseudo-level and the NONE sentinel used for a missing up/down
transition.  The SDK itself is outside the repository; the constructors
follow the levels named by the spec's data model. -/
inductive SessionLevel where
  | online
  | baseline
  | weaningBaseline
  | level1
  | level2
  | level3
  | level4
  | noneLevel
  deriving DecidableEq

/-- Modelled from the spec: the vendor SDK method SessionLevel.is_active_level
(the SDK is outside the repository).  Per the spec, an active level is one
that is neither Online nor a sentinel. -/
def SessionLevel.is_active_level : SessionLevel → Bool
  | .online => false
  | .noneLevel => false
  | _ => true

/-- The state_machine sub-object of a pysnoo ActivityState, with the four
fields snoo.py reads: state, hold, up_transition, down_transition. -/
structure StateMachine where
  state : SessionLevel
  hold : Bool
  up_transition : SessionLevel
  down_transition : SessionLevel
  deriving DecidableEq

/-- An activity snapshot as consumed by snoo.py (only the state_machine
field is read by the code under verification). -/
structure ActivityState where
  state_machine : StateMachine
  deriving DecidableEq

/-- Pub/sub messages published by the code.  Shapes follow
publish_start and publish_goto_state (mirrored verbatim in
src/tests/fakes.py): go_to_state carries a state and an optional hold flag
(the hold key is omitted when the argument is absent). -/
inductive Msg where
  | start_snoo
  | go_to_state (state : SessionLevel) (hold : Option Bool)
  deriving DecidableEq

/-- Observable effects of one command handler. -/
inductive Effect where
  | publish (m : Msg)
  | setLed (state : Bool)
  | logWarning
  deriving DecidableEq

/-- Configuration constants of snoo_buttons/constants.py that the handlers
read, plus the per-session weaning flag discovered in get_pubnub. -/
structure Config where
  HOLD_ON_START : Bool
  MAX_SESSION_LEVEL : Option Nat
  FORCE_LOCK : Bool
  weaning : Bool
  deriving DecidableEq

/-- get_lock_status from snoo.py: reads the hold flag of the snapshot. -/
def get_lock_status (last_activity_state : ActivityState) : Bool :=
  last_activity_state.state_machine.hold

/-- set_led from utils.py: the resulting LED state is exactly the argument
(led.on() when true, led.off() when false). -/
def set_led (state : Bool) : Bool :=
  if state then true else false

/-- MAP_INT_TO_LEVEL from snoo.py: the inversion of MAP_LEVEL_TO_INT
(0 to Baseline, 1..4 to Level1..Level4); when weaning mode is detected,
get_pubnub remaps entry 0 to WeaningBaseline.  A missing key is a Python
KeyError, modelled as Option.none. -/
def MAP_INT_TO_LEVEL (weaning : Bool) : Nat → Option SessionLevel
  | 0 => some (if weaning then .weaningBaseline else .baseline)
  | 1 => some .level1
  | 2 => some .level2
  | 3 => some .level3
  | 4 => some .level4
  | _ => Option.none

/-- Commands enum from constants.py. -/
inductive Commands where
  | lock
  | up_level
  | down_level
  | toggle
  | set_to_max
  | set_lock
  deriving DecidableEq

/-- toggle from snoo.py (lines 183-194): when the snapshot level is Online,
publish start_snoo, then (only under HOLD_ON_START) publish
go_to_state(Baseline, hold=true) - note the literal Baseline - and set the
LED to HOLD_ON_START; otherwise publish go_to_state(Online) and clear the
LED. -/
def toggle (cfg : Config) (last_activity_state : ActivityState) : List Effect :=
  if last_activity_state.state_machine.state = .online then
    [Effect.publish .start_snoo]
      ++ (if cfg.HOLD_ON_START then
            [Effect.publish (.go_to_state .baseline (some true))]
          else [])
      ++ [Effect.setLed cfg.HOLD_ON_START]
  else
    [Effect.publish (.go_to_state .online Option.none), Effect.setLed false]

/-- up_level from snoo.py (lines 197-204): guarded - returns after the
warning when the up transition is not an active level. -/
def up_level (last_activity_state : ActivityState) : List Effect :=
  let up_transition := last_activity_state.state_machine.up_transition
  if up_transition.is_active_level = false then
    [Effect.logWarning]
  else
    [Effect.publish (.go_to_state up_transition Option.none),
     Effect.setLed (get_lock_status last_activity_state)]

/-- down_level from snoo.py (lines 207-213): logs a warning when the down
transition is not an active level but does NOT return, so it publishes the
(possibly sentinel) down transition and sets the LED regardless. -/
def down_level (last_activity_state : ActivityState) : List Effect :=
  let down_transition := last_activity_state.state_machine.down_transition
  (if down_transition.is_active_level = false then [Effect.logWarning] else [])
    ++ [Effect.publish (.go_to_state down_transition Option.none),
        Effect.setLed (get_lock_status last_activity_state)]

/-- lock from snoo.py (lines 216-224): logs a warning when the current level
is not active but does NOT return, so it publishes
go_to_state(level, not hold) and sets the LED regardless. -/
def lock (last_activity_state : ActivityState) : List Effect :=
  let current_state := last_activity_state.state_machine.state
  let new_hold := ! get_lock_status last_activity_state
  (if current_state.is_active_level = false then [Effect.logWarning] else [])
    ++ [Effect.publish (.go_to_state current_state (some new_hold)),
        Effect.setLed new_hold]

/-- Python KeyError, raised by the dict lookup in _set_max_level_and_lock
when MAX_SESSION_LEVEL is None or outside 0..4. -/
inductive KeyError where
  | keyError
  deriving DecidableEq

/-- _set_max_level_and_lock from snoo.py (lines 227-228): ignores the
snapshot and publishes go_to_state(MAP_INT_TO_LEVEL[MAX_SESSION_LEVEL],
FORCE_LOCK). -/
def _set_max_level_and_lock (cfg : Config) (_ : ActivityState) :
    Except KeyError (List Effect) :=
  match cfg.MAX_SESSION_LEVEL with
  | Option.none => .error .keyError
  | some m =>
    match MAP_INT_TO_LEVEL cfg.weaning m with
    | Option.none => .error .keyError
    | some l => .ok [Effect.publish (.go_to_state l (some cfg.FORCE_LOCK))]

/-- _set_lock from snoo.py (lines 231-233): publishes
go_to_state(current level, hold=true). -/
def _set_lock (last_activity_state : ActivityState) : List Effect :=
  [Effect.publish
    (.go_to_state last_activity_state.state_machine.state (some true))]

/-- listener_update_lock_led from snoo.py (lines 258-260): turns the LED on
when the pushed snapshot holds, and otherwise does nothing (the LED keeps
its previous state).  The argument led is the LED state before the event;
the result is the LED state after. -/
def listener_update_lock_led (last_activity_state : ActivityState)
    (led : Bool) : Bool :=
  if last_activity_state.state_machine.hold then set_led true else led

/-- dispatch from snoo.py (lines 263-276): selects the handler for a
command.  Handlers that cannot raise on their own are wrapped in ok; the
KeyError of _set_max_level_and_lock flows through. -/
def dispatch (cfg : Config) : Commands → ActivityState → Except KeyError (List Effect)
  | .lock => fun s => .ok (lock s)
  | .down_level => fun s => .ok (down_level s)
  | .up_level => fun s => .ok (up_level s)
  | .toggle => fun s => .ok (toggle cfg s)
  | .set_to_max => fun s => _set_max_level_and_lock cfg s
  | .set_lock => fun s => .ok (_set_lock s)

/-- Modelled from the spec: the claimed BaselineIdentity - the session's
baseline identity, which is the weaning variant when weaning mode is
enabled.  Defined only to compare the spec's claim about toggle against the
code. -/
def baselineIdentity (weaning : Bool) : SessionLevel :=
  if weaning then .weaningBaseline else .baseline

/-- asyncio QueueFull, raised by Queue.put_nowait when no free slot is
available. -/
inductive QueueFullError where
  | queueFull
  deriving DecidableEq

/-- Capacity of the module-level queue in snoo.py (line 180):
asyncio.Queue(maxsize=10). -/
def queue_maxsize : Nat := 10

/-- put_nowait of the Python standard library asyncio.Queue (outside the
repository, documented semantics): put the item without blocking if a slot
is free, otherwise raise QueueFull.  The queue is modelled as the list of
queued commands, oldest first. -/
def put_nowait (maxsize : Nat) (q : List Commands) (c : Commands) :
    Except QueueFullError (List Commands) :=
  if q.length < maxsize then .ok (q ++ [c]) else .error .queueFull

/-- Recursion underlying _get_devices_retry: remaining iterations of the
while loop, the index of the next attempt, and the devices variable so far.
Each attempt is an external call that either returns a device-list value or
raises; the try/finally in the source has no except clause, so a raise
propagates out immediately.  The result pairs the outcome with the number
of attempts actually performed. -/
def _get_devices_retry_go {E D : Type} (attempts : Nat → Except E D) :
    Nat → Nat → Option D → Except E (Option D) × Nat
  | 0, _, devices => (.ok devices, 0)
  | remaining + 1, idx, _ =>
    match attempts idx with
    | .error e => (.error e, 1)
    | .ok d =>
      let r := _get_devices_retry_go attempts remaining (idx + 1) (some d)
      (r.1, r.2 + 1)

/-- _get_devices_retry from snoo.py (lines 69-77): loops while
current_count < retry_count, overwriting devices with each attempt's result
and incrementing the counter in a finally block; an attempt that raises
propagates its exception (there is no except clause).  Returns the outcome
together with the number of attempts performed. -/
def _get_devices_retry {E D : Type} (attempts : Nat → Except E D)
    (retry_count : Nat) : Except E (Option D) × Nat :=
  _get_devices_retry_go attempts retry_count 0 Option.none

/-- Contents of the persisted token file once json.load has succeeded:
either not a dict or otherwise unusable (any exception inside _authorized),
a dict without a usable expires_at (absent, or the falsy 0), or a dict with
a numeric expires_at epoch value. -/
inductive Token where
  | malformed
  | noExpiry
  | withExpiry (expires_at : Int)
  deriving DecidableEq

/-- _authorized from snoo.py (lines 104-112): true only when the token is
present, has a truthy expires_at, and fromtimestamp(expires_at) is strictly
later than now; any exception while evaluating yields false.  Time is
modelled as an integer epoch instant. -/
def _authorized (token : Option Token) (now : Int) : Bool :=
  match token with
  | Option.none => false
  | some .malformed => false
  | some .noExpiry => false
  | some (.withExpiry e) => if e = 0 then false else decide (now < e)

/-- Events of the session-acquisition phase of get_pubnub, in program
order: deleting the persisted token file, fetching a fresh token from the
credential store, persisting it via _token_updater, and finally the rest of
session construction (device resolution, weaning detection, pubnub
construction) collapsed into one event. -/
inductive AuthEv where
  | removeTokenFile
  | fetchToken
  | persistToken
  | buildPubnub
  deriving DecidableEq

/-- Python OSError relevant here: os.remove on a path that does not exist
raises FileNotFoundError. -/
inductive OsError where
  | fileNotFound
  deriving DecidableEq

/-- Token-handling prefix of get_pubnub from snoo.py (lines 127-159):
token := _get_token() (Option.none when the token file is absent); when
_authorized(token) is falsy the code calls os.remove(TOKEN_FILE) - which
raises FileNotFoundError when the file is absent - and sets force_auth;
when force_auth or the SDK session is not authorized it fetches a token
with the stored credentials and persists it; then it resolves devices and
constructs the pubnub session (collapsed into buildPubnub). -/
def get_pubnub (token_file : Option Token) (now : Int)
    (sdk_authorized : Bool) : Except OsError (List AuthEv) :=
  let token := token_file
  if _authorized token now = false then
    match token_file with
    | Option.none => .error .fileNotFound
    | some _ =>
      .ok [AuthEv.removeTokenFile, AuthEv.fetchToken, AuthEv.persistToken,
           AuthEv.buildPubnub]
  else if sdk_authorized = false then
    .ok [AuthEv.fetchToken, AuthEv.persistToken, AuthEv.buildPubnub]
  else
    .ok [AuthEv.buildPubnub]

/-- Environment for one worker session: the outcome of the nth history
fetch (Option.none when the history is empty), whether the nth command
application completes without raising, and the effects the nth application
performed before raising when it does raise (a publish may have gone out
before the exception). -/
structure WorkerEnv where
  fetch : Nat → Option ActivityState
  applyOk : Nat → Bool
  partialEffects : Nat → List Effect

/-- Worker-level events: dequeuing a command, an effect of a command
application, re-enqueuing a command after a failure, unregistering one
listener, unsubscribing the channel, and stopping the pubnub session. -/
inductive WEv where
  | deq (c : Commands)
  | eff (e : Effect)
  | enq (c : Commands)
  | unregister
  | unsub
  | stop
  deriving DecidableEq

/-- Outcome of the inner polling loop of worker: the 20-minute window
elapsed, the loop broke out on a failure (after re-enqueuing the failed
command), or an exception escaped the loop (QueueFull raised by the
re-enqueue itself, which the bare except does not cover since it is inside
the handler). -/
inductive DrainOut where
  | timeUp (q : List Commands) (evs : List WEv)
  | broke (q : List Commands) (evs : List WEv)
  | raised (q : List Commands) (evs : List WEv)
  deriving DecidableEq

/-- Inner polling loop of worker from snoo.py (lines 307-328), with fuel
counting the remaining iterations of the timed while loop and n indexing
the environment outcomes.  Each iteration: when the queue is non-empty,
dequeue one command and fetch a fresh snapshot; when the fetch yields
nothing, re-enqueue the command and break; otherwise apply the dispatched
handler, and when it raises (environment says so, or the handler itself
raises KeyError) re-enqueue the command and break; on success append the
effects and continue with the next iteration. -/
def drain (cfg : Config) (env : WorkerEnv) :
    Nat → Nat → List Commands → List WEv → DrainOut
  | 0, _, q, evs => .timeUp q evs
  | fuel + 1, n, q, evs =>
    match q with
    | [] => drain cfg env fuel n [] evs
    | c :: rest =>
      let evs1 := evs ++ [WEv.deq c]
      match env.fetch n with
      | Option.none =>
        match put_nowait queue_maxsize rest c with
        | .ok q2 => .broke q2 (evs1 ++ [WEv.enq c])
        | .error _ => .raised rest evs1
      | some s =>
        if env.applyOk n = false then
          let evs2 := evs1 ++ (env.partialEffects n).map WEv.eff
          match put_nowait queue_maxsize rest c with
          | .ok q2 => .broke q2 (evs2 ++ [WEv.enq c])
          | .error _ => .raised rest evs2
        else
          match dispatch cfg c s with
          | .error _ =>
            match put_nowait queue_maxsize rest c with
            | .ok q2 => .broke q2 (evs1 ++ [WEv.enq c])
            | .error _ => .raised rest evs1
          | .ok effs => drain cfg env fuel (n + 1) rest (evs1 ++ effs.map WEv.eff)

/-- Number of listeners worker registers (snoo.py lines 294-302): the LED
mirror always, the lock enforcer under FORCE_LOCK, and the max-level
enforcer when MAX_SESSION_LEVEL is configured (it can be 0). -/
def numListeners (cfg : Config) : Nat :=
  1 + (if cfg.FORCE_LOCK then 1 else 0)
    + (if cfg.MAX_SESSION_LEVEL.isSome then 1 else 0)

/-- One iteration of the infinite while True loop of worker from snoo.py
(lines 287-337): run the timed polling loop, then unregister every
listener, unsubscribe, and - via the finally block of get_pubnub - stop
the session.  When an exception escapes the polling loop the unregister
and unsubscribe steps are skipped but the finally block still stops the
session.  Returns the queue left for the next iteration and the event
trace of this iteration. -/
def worker (cfg : Config) (env : WorkerEnv) (fuel : Nat)
    (q : List Commands) : List Commands × List WEv :=
  match drain cfg env fuel 0 q [] with
  | .timeUp q2 evs =>
    (q2, evs ++ List.replicate (numListeners cfg) WEv.unregister
           ++ [WEv.unsub, WEv.stop])
  | .broke q2 evs =>
    (q2, evs ++ List.replicate (numListeners cfg) WEv.unregister
           ++ [WEv.unsub, WEv.stop])
  | .raised q2 evs => (q2, evs ++ [WEv.stop])

/-- Snapshot with level Online: no active level and sentinel transitions. -/
def snapOnline : ActivityState :=
  ⟨⟨.online, false, .noneLevel, .noneLevel⟩⟩

/-- Snapshot at Level1 with the hold lock engaged. -/
def snapLevel1Held : ActivityState :=
  ⟨⟨.level1, true, .level2, .baseline⟩⟩

/-- Default configuration: no hold-on-start, no max level, no forced lock,
no weaning. -/
def cfgDefault : Config :=
  ⟨false, Option.none, false, false⟩

/-- Configuration with HOLD_ON_START set for a session in weaning mode. -/
def cfgWeanHold : Config :=
  ⟨true, Option.none, false, true⟩

/-- Configuration with MAX_SESSION_LEVEL 4 and FORCE_LOCK set. -/
def cfgMax4 : Config :=
  ⟨false, some 4, true, false⟩

/-- A queue filled to its capacity of 10. -/
def fullQueue : List Commands :=
  List.replicate 10 Commands.toggle

/-- Attempt oracle whose first device fetch raises and whose later fetches
succeed. -/
def attemptsFail0 : Nat → Except Unit Nat :=
  fun n => if n = 0 then .error () else .ok n

/-- Attempt oracle whose every device fetch succeeds, with distinct
results. -/
def attemptsOk : Nat → Except Unit Nat :=
  fun n => .ok (n + 5)

/-- Worker environment in which every history fetch yields nothing. -/
def envFetchNone : WorkerEnv :=
  ⟨fun _ => Option.none, fun _ => true, fun _ => []⟩

/-- C1 counterexample: at the concrete Online snapshot (not an active
level), applying lock is not a no-op - a go-to-state message is
published. -/
theorem lock_inactive_counterexample :
    snapOnline.state_machine.state.is_active_level = false
    ∧ Effect.publish (Msg.go_to_state .online (some true)) ∈ lock snapOnline := by
  decide

/-- C1 amended: for every snapshot whose level is not an active level, lock
logs a warning but still publishes go-to-state(level, not hold) and sets
the LED to not hold (the warning is not followed by a return). -/
theorem lock_inactive_warns_and_publishes (s : ActivityState)
    (h : s.state_machine.state.is_active_level = false) :
    lock s
      = [Effect.logWarning,
         Effect.publish
           (.go_to_state s.state_machine.state (some (! get_lock_status s))),
         Effect.setLed (! get_lock_status s)] := by
  simp [lock, h]

/-- Witness for the amended C1 theorem at the Online snapshot. -/
theorem lock_inactive_warns_and_publishes_witness :
    lock snapOnline
      = [Effect.logWarning,
         Effect.publish (.go_to_state .online (some true)),
         Effect.setLed true] :=
  lock_inactive_warns_and_publishes snapOnline (by decide)

/-- C2: for every snapshot whose downTransition is not an active level,
down_level logs a warning but still publishes go-to-state with the
sentinel downTransition value and sets the LED from the snapshot's hold
(no guard or return after the warning). -/
theorem down_level_inactive_still_publishes (s : ActivityState)
    (h : s.state_machine.down_transition.is_active_level = false) :
    down_level s
      = [Effect.logWarning,
         Effect.publish
           (.go_to_state s.state_machine.down_transition Option.none),
         Effect.setLed (get_lock_status s)] := by
  simp [down_level, h]

/-- Witness for the C2 theorem at the Online snapshot, whose downTransition
is the sentinel. -/
theorem down_level_inactive_still_publishes_witness :
    down_level snapOnline
      = [Effect.logWarning,
         Effect.publish (.go_to_state .noneLevel Option.none),
         Effect.setLed false] :=
  down_level_inactive_still_publishes snapOnline (by decide)

/-- C4 counterexample: at a concrete snapshot with hold false and the LED
currently on, the listener does not turn the LED off. -/
theorem listener_lock_led_counterexample :
    snapOnline.state_machine.hold = false
    ∧ listener_update_lock_led snapOnline true ≠ false := by
  decide

/-- C4 amended: the listener sets the LED on when the pushed snapshot's
hold flag is true, and leaves the LED unchanged (it does not turn it off)
when the hold flag is false. -/
theorem listener_lock_led_spec (s : ActivityState) (led : Bool) :
    (s.state_machine.hold = true → listener_update_lock_led s led = true)
    ∧ (s.state_machine.hold = false → listener_update_lock_led s led = led) := by
  constructor <;> intro h <;> simp [listener_update_lock_led, set_led, h]

/-- Witness for the amended C4 theorem: a held snapshot turns the LED on,
and an unheld snapshot leaves an already-lit LED on. -/
theorem listener_lock_led_spec_witness :
    listener_update_lock_led snapLevel1Held false = true
    ∧ listener_update_lock_led snapOnline true = true :=
  ⟨(listener_lock_led_spec snapLevel1Held false).1 rfl,
   (listener_lock_led_spec snapOnline true).2 rfl⟩

/-- C9 counterexample: in a weaning-mode session with HOLD_ON_START, toggle
from Online publishes go-to-state with the literal Baseline, which is not
the session's baseline identity (the weaning variant). -/
theorem toggle_weaning_counterexample :
    cfgWeanHold.weaning = true
    ∧ snapOnline.state_machine.state = .online
    ∧ toggle cfgWeanHold snapOnline
        = [Effect.publish .start_snoo,
           Effect.publish (.go_to_state .baseline (some true)),
           Effect.setLed true]
    ∧ SessionLevel.baseline ≠ baselineIdentity cfgWeanHold.weaning := by
  decide

/-- C9 amended: for every snapshot with level Online, toggle publishes
start first and then, only when HOLD_ON_START is set, a subsequent
go-to-state(Baseline, hold=true) with the literal Baseline identity
regardless of weaning mode, and sets the LED to HOLD_ON_START; it never
publishes a go-to-state first. -/
theorem toggle_online_spec (cfg : Config) (s : ActivityState)
    (h : s.state_machine.state = .online) :
    toggle cfg s
      = [Effect.publish .start_snoo]
        ++ (if cfg.HOLD_ON_START then
              [Effect.publish (.go_to_state .baseline (some true))]
            else [])
        ++ [Effect.setLed cfg.HOLD_ON_START]
    ∧ (toggle cfg s).head? = some (Effect.publish .start_snoo) := by
  cases hc : cfg.HOLD_ON_START <;> constructor <;> simp [toggle, h, hc]

/-- Witness for the amended C9 theorem at the Online snapshot with
HOLD_ON_START set. -/
theorem toggle_online_spec_witness :
    toggle cfgWeanHold snapOnline
      = [Effect.publish .start_snoo]
        ++ (if cfgWeanHold.HOLD_ON_START then
              [Effect.publish (.go_to_state .baseline (some true))]
            else [])
        ++ [Effect.setLed cfgWeanHold.HOLD_ON_START]
    ∧ (toggle cfgWeanHold snapOnline).head? = some (Effect.publish .start_snoo) :=
  toggle_online_spec cfgWeanHold snapOnline rfl

/-- C10: whenever MAX_SESSION_LEVEL is configured to a value the level
table maps (0..4), _set_max_level_and_lock publishes
go-to-state(MAP_INT_TO_LEVEL[MAX_SESSION_LEVEL], hold=FORCE_LOCK),
identically for any two snapshots (it ignores the snapshot entirely). -/
theorem set_to_max_spec (cfg : Config) (m : Nat) (s1 s2 : ActivityState)
    (hm : cfg.MAX_SESSION_LEVEL = some m) (hle : m ≤ 4) :
    ∃ l, MAP_INT_TO_LEVEL cfg.weaning m = some l
      ∧ _set_max_level_and_lock cfg s1
          = .ok [Effect.publish (.go_to_state l (some cfg.FORCE_LOCK))]
      ∧ _set_max_level_and_lock cfg s1 = _set_max_level_and_lock cfg s2 := by
  interval_cases m <;>
    exact ⟨_, rfl, by simp [_set_max_level_and_lock, hm, MAP_INT_TO_LEVEL], rfl⟩

/-- Witness for the C10 theorem with MAX_SESSION_LEVEL 4 and FORCE_LOCK
set, at two different snapshots. -/
theorem set_to_max_spec_witness :
    ∃ l, MAP_INT_TO_LEVEL cfgMax4.weaning 4 = some l
      ∧ _set_max_level_and_lock cfgMax4 snapOnline
          = .ok [Effect.publish (.go_to_state l (some cfgMax4.FORCE_LOCK))]
      ∧ _set_max_level_and_lock cfgMax4 snapOnline
          = _set_max_level_and_lock cfgMax4 snapLevel1Held :=
  set_to_max_spec cfgMax4 4 snapOnline snapLevel1Held rfl (by decide)

/-- C5 counterexample: enqueuing onto the concrete full capacity-10 queue
raises QueueFull rather than silently dropping the command - the result is
an error, not the unchanged queue. -/
theorem put_nowait_full_counterexample :
    fullQueue.length = queue_maxsize
    ∧ put_nowait queue_maxsize fullQueue Commands.lock
        = .error .queueFull
    ∧ put_nowait queue_maxsize fullQueue Commands.lock ≠ .ok fullQueue := by
  refine ⟨rfl, rfl, ?_⟩
  intro h
  exact Except.noConfusion h

/-- C5 amended: every enqueue onto the capacity-10 queue is non-blocking
(put_nowait is a plain call); when a slot is free the command is appended,
and when the queue is full put_nowait raises QueueFull to the caller (the
command is dropped, but the error does surface). -/
theorem put_nowait_spec (q : List Commands) (c : Commands) :
    (q.length < queue_maxsize → put_nowait queue_maxsize q c = .ok (q ++ [c]))
    ∧ (queue_maxsize ≤ q.length →
        put_nowait queue_maxsize q c = .error .queueFull) := by
  constructor
  · intro h
    simp [put_nowait, h]
  · intro h
    simp only [put_nowait]
    rw [if_neg (by omega)]

/-- Witness for the amended C5 theorem: appending to an empty queue, and
the QueueFull error on the full queue. -/
theorem put_nowait_spec_witness :
    put_nowait queue_maxsize [] Commands.lock = .ok [Commands.lock]
    ∧ put_nowait queue_maxsize fullQueue Commands.up_level
        = .error .queueFull :=
  ⟨(put_nowait_spec [] Commands.lock).1 (by decide),
   (put_nowait_spec fullQueue Commands.up_level).2 (by decide)⟩

/-- C6 counterexample: with a concrete attempt oracle whose first
device-list fetch raises while the remaining fetches would succeed, the
retry helper raises after a single attempt - a failing attempt aborts the
remaining attempts. -/
theorem get_devices_retry_counterexample :
    attemptsFail0 1 = .ok 1
    ∧ attemptsFail0 2 = .ok 2
    ∧ _get_devices_retry attemptsFail0 3 = (.error (), 1) :=
  ⟨rfl, rfl, rfl⟩

/-- C6 amended: when every attempt succeeds, the device-list fetch performs
exactly 3 attempts regardless of early success, each result overwriting the
previous, and returns the third result; but a failing attempt propagates
its exception immediately, aborting the remaining attempts. -/
theorem get_devices_retry_spec {E D : Type} (attempts : Nat → Except E D)
    (d0 d1 d2 : D) (e : E) :
    (attempts 0 = .ok d0 → attempts 1 = .ok d1 → attempts 2 = .ok d2 →
      _get_devices_retry attempts 3 = (.ok (some d2), 3))
    ∧ (attempts 0 = .error e →
        _get_devices_retry attempts 3 = (.error e, 1)) := by
  constructor
  · intro h0 h1 h2
    simp [_get_devices_retry, _get_devices_retry_go, h0, h1, h2]
  · intro h0
    simp [_get_devices_retry, _get_devices_retry_go, h0]

/-- Witness for the amended C6 theorem: an all-success oracle performs 3
attempts and returns the third result; the first-attempt-fails oracle
raises after one attempt. -/
theorem get_devices_retry_spec_witness :
    _get_devices_retry attemptsOk 3 = (.ok (some 7), 3)
    ∧ _get_devices_retry attemptsFail0 3 = (.error (), 1) :=
  ⟨(get_devices_retry_spec attemptsOk 5 6 7 ()).1 rfl rfl rfl,
   (get_devices_retry_spec attemptsFail0 0 0 0 ()).2 rfl⟩

/-- C7: when the persisted token file exists but is expired (expires_at not
after now) or unusable (any parse error, or no usable expires_at), the
session provider deletes the token file and performs full credential-based
re-authentication, in that order, before constructing the session. -/
theorem expired_token_forces_reauth (t : Token) (now : Int) (sdk : Bool)
    (h : (∃ e, t = Token.withExpiry e ∧ e ≤ now)
          ∨ t = Token.malformed ∨ t = Token.noExpiry) :
    get_pubnub (some t) now sdk
      = .ok [AuthEv.removeTokenFile, AuthEv.fetchToken, AuthEv.persistToken,
             AuthEv.buildPubnub] := by
  have hauth : _authorized (some t) now = false := by
    rcases h with ⟨e, rfl, hle⟩ | rfl | rfl
    · by_cases h0 : e = 0
      · simp [_authorized, h0]
      · simp [_authorized, h0]
        omega
    · rfl
    · rfl
  simp [get_pubnub, hauth]

/-- Witness for the C7 theorem: a token that expired at instant 5, checked
at instant 10, with the SDK reporting its own flag as valid. -/
theorem expired_token_forces_reauth_witness :
    get_pubnub (some (Token.withExpiry 5)) 10 true
      = .ok [AuthEv.removeTokenFile, AuthEv.fetchToken, AuthEv.persistToken,
             AuthEv.buildPubnub] :=
  expired_token_forces_reauth (Token.withExpiry 5) 10 true
    (Or.inl ⟨5, rfl, by decide⟩)

/-- C8: with no persisted token file, the session provider does not proceed
to credential-based authentication - it raises FileNotFoundError from the
unconditional os.remove of the token file. -/
theorem missing_token_file_crashes :
    get_pubnub Option.none 0 false = .error .fileNotFound :=
  rfl

/-- C3: whenever the dequeued command's fresh snapshot fetch yields nothing
or its application raises, the worker re-enqueues that same command exactly
once (the queue gains one occurrence of it), stops draining immediately
(the only events after the dequeue are the partial effects of the failed
application and the re-enqueue), and recycles the session - unregistering
every listener, unsubscribing, and stopping the session - before the
command can be retried. -/
theorem worker_failure_requeues_once (cfg : Config) (env : WorkerEnv)
    (c : Commands) (rest : List Commands) (fuel : Nat)
    (hcap : rest.length ≤ 9)
    (hfail : env.fetch 0 = Option.none ∨ env.applyOk 0 = false) :
    ∃ P, worker cfg env (fuel + 1) (c :: rest)
        = (rest ++ [c],
           [WEv.deq c] ++ P ++ [WEv.enq c]
             ++ List.replicate (numListeners cfg) WEv.unregister
             ++ [WEv.unsub, WEv.stop])
      ∧ (∀ ev ∈ P, ∃ e, ev = WEv.eff e)
      ∧ (rest ++ [c]).count c = rest.count c + 1 := by
  have hlt : rest.length < queue_maxsize := by
    simp only [queue_maxsize]
    omega
  have hput : put_nowait queue_maxsize rest c = .ok (rest ++ [c]) := by
    simp [put_nowait, hlt]
  have hcount : (rest ++ [c]).count c = rest.count c + 1 := by
    simp [List.count_append]
  rcases hfail with hf | ha
  · refine ⟨[], ?_, by simp, hcount⟩
    simp [worker, drain, hf, hput]
  · rcases hfetch : env.fetch 0 with _ | s
    · refine ⟨[], ?_, by simp, hcount⟩
      simp [worker, drain, hfetch, hput]
    · refine ⟨(env.partialEffects 0).map WEv.eff, ?_, ?_, hcount⟩
      · simp [worker, drain, hfetch, ha, hput]
      · intro ev hev
        rcases List.mem_map.mp hev with ⟨e, _, rfl⟩
        exact ⟨e, rfl⟩

/-- Witness for the C3 theorem: one queued Toggle command whose snapshot
fetch yields nothing is re-enqueued once and the session is recycled. -/
theorem worker_failure_requeues_once_witness :
    ∃ P, worker cfgDefault envFetchNone 1 [Commands.toggle]
        = ([Commands.toggle],
           [WEv.deq Commands.toggle] ++ P ++ [WEv.enq Commands.toggle]
             ++ List.replicate (numListeners cfgDefault) WEv.unregister
             ++ [WEv.unsub, WEv.stop])
      ∧ (∀ ev ∈ P, ∃ e, ev = WEv.eff e)
      ∧ ([Commands.toggle] : List Commands).count Commands.toggle
          = ([] : List Commands).count Commands.toggle + 1 :=
  worker_failure_requeues_once cfgDefault envFetchNone Commands.toggle [] 0
    (by decide) (Or.inl rfl)

end SnooButtons
